import Mathlib

/-!
# Verification of the hugoreleaser release pipeline core

Shallow embedding of the release-publishing client, the temporary-failure
classifier, the upload retry attempt, the client factory, the top-level
run wrapper, and the "all" command handler pipeline, translated from
`main.go` (packages `main` and `releases`) and `cmd/allcmd/allcmd.go`.

External effects (file reads, remote API calls, the pseudo-random source)
are passed in as explicit data or functions; machine behavior that the
code relies on (Go `errors.Is` over the concrete error types of this
package) is embedded faithfully and documented at its definition.
-/

set_option autoImplicit false

namespace Hugoreleaser

/-- Go error values as they occur in this package: `base` is an opaque
error with a message (e.g. produced by `fmt.Errorf` without `%w`, or
returned by an external library call); `wrap msg inner` is
`fmt.Errorf("msg: %w", inner)`, which has an `Unwrap` method;
`temporary inner` is the struct `TemporaryError{inner}` whose single
field embeds the `error` interface, with `inner` a non-nil error, and
`temporaryNil` is the zero value `TemporaryError{}` wrapping a nil
error; `deadlineExceeded` and `canceled` are the `context` package
sentinels. -/
inductive GoErr where
  | base (msg : String)
  | wrap (msg : String) (inner : GoErr)
  | temporary (inner : GoErr)
  | temporaryNil
  | deadlineExceeded
  | canceled
  deriving DecidableEq, Repr

/-- Model of an open `*os.File` handle: only its path matters here
(`f.Name()` returns the path the file was opened with). -/
structure GoFile where
  name : String
  deriving DecidableEq, Repr

/-- Model of the non-nil part of a `*github.Response`: the HTTP status
code of the completed round trip. -/
structure HttpResponse where
  statusCode : Int
  deriving DecidableEq, Repr

/-- Translation of `isTemporaryHttpStatus` from the `releases` package:
`http.StatusUnprocessableEntity` is 422 and `http.StatusBadRequest` is
400; every other status falls to the `default` arm and yields `true`. -/
def isTemporaryHttpStatus (status : Int) : Bool :=
  if status = 422 ∨ status = 400 then false else true

/-- Embedding of the Go expression `errors.Is(err, TemporaryError{})` as
used in `UploadAssetsFileWithRetries`. `TemporaryError` declares no
`Is(error) bool` and no `Unwrap() error` method (its embedded `error`
field only promotes `Error()`), so `errors.Is` can match the target
only through interface equality `err == TemporaryError{}`: true exactly
when `err` is a `TemporaryError` whose wrapped field is nil. Errors
built by `fmt.Errorf` with `%w` do have `Unwrap`, so `errors.Is`
recurses through `wrap`; it cannot unwrap through `temporary` (no
`Unwrap` method) and stops at atomic errors. -/
def errorsIsTemporaryEmpty : GoErr → Bool
  | .temporaryNil => true
  | .wrap _ inner => errorsIsTemporaryEmpty inner
  | _ => false

/-- Translation of `GitHubClient.UploadAssetsFile`, with the outcome of
the external `Repositories.UploadReleaseAsset` round trip supplied as
data: `err` is the call's error and `resp` its response (`none` models
a nil `*github.Response`, e.g. a transport failure before any status
was received). The function returns nil on success, returns `err`
unwrapped when a response is present whose status is not temporary, and
otherwise returns `TemporaryError{err}`. -/
def githubUploadAssetsFile (err : Option GoErr) (resp : Option HttpResponse) :
    Option GoErr :=
  match err with
  | none => none
  | some e =>
    match resp with
    | some r =>
      if ¬ isTemporaryHttpStatus r.statusCode then some e
      else some (.temporary e)
    | none => some (.temporary e)

/-- File-handle events observable during one retry attempt. -/
inductive FileEvent where
  | opened
  | closed
  deriving DecidableEq, Repr

/-- Translation of the attempt closure inside `UploadAssetsFileWithRetries`:
`openResult` is the outcome of the `openFile()` call of this attempt and
`upload` gives the outcome of `client.UploadAssetsFile` on the freshly
opened handle. Returns the `(error, retry)` pair handed to `withRetries`
together with the trace of file-handle events: on an open failure the
attempt reports `(err, false)` with no handle acquired; otherwise the
handle is opened, `deferred f.Close()` runs on every return path, and the
attempt reports retryable exactly when
`err != nil && errors.Is(err, TemporaryError{})`. -/
def uploadAttempt (openResult : Except GoErr GoFile) (upload : GoFile → Option GoErr) :
    (Option GoErr × Bool) × List FileEvent :=
  match openResult with
  | .error e => ((some e, false), [])
  | .ok f =>
    match upload f with
    | some e =>
      if errorsIsTemporaryEmpty e then ((some e, true), [.opened, .closed])
      else ((some e, false), [.opened, .closed])
    | none => ((none, false), [.opened, .closed])

/-- Translation of `config.ReleaseSettings`, the fields the `releases`
package reads. -/
structure ReleaseSettings where
  repositoryOwner : String
  repository : String
  name : String
  releaseNotesFilename : String
  draft : Bool
  prerelease : Bool
  generateReleaseNotesOnHost : Bool
  deriving DecidableEq, Repr

/-- Translation of the `github.RepositoryRelease` request built by
`GitHubClient.Release`; `Option String` fields model the `*string`
produced by the local helper `s`, which maps the empty string to nil. -/
structure RepositoryRelease where
  tagName : Option String
  targetCommitish : Option String
  name : Option String
  body : Option String
  draft : Bool
  prerelease : Bool
  generateReleaseNotes : Bool
  deriving DecidableEq, Repr

/-- Builds the `github.RepositoryRelease` value exactly as
`GitHubClient.Release` does, using the nil-for-empty helper `s`. -/
def releaseRequest (tagName committish : String) (settings : ReleaseSettings)
    (body : String) : RepositoryRelease :=
  let s : String → Option String := fun x => if x = "" then none else some x
  { tagName := s tagName
    targetCommitish := s committish
    name := s settings.name
    body := s body
    draft := settings.draft
    prerelease := settings.prerelease
    generateReleaseNotes := settings.generateReleaseNotesOnHost }

/-- Outcome of the external `Repositories.CreateRelease` call: its error,
the status code of its response, and the created release's ID. -/
structure CreateReleaseOutcome where
  err : Option GoErr
  statusCode : Int
  releaseID : Int
  deriving DecidableEq, Repr

/-- Translation of `GitHubClient.Release`. `fs` gives the outcome of
`os.ReadFile` per path and `create` the outcome of the external
`Repositories.CreateRelease` call per request. The body starts empty;
when a release-notes filename is configured the file is read, a read
error returning `(0, err)` at once. The request is then built and
submitted; a call error returns `(0, err)`, a status other than
`http.StatusCreated` (201) returns a fresh formatted error, and
otherwise the release ID is returned. -/
def githubRelease (fs : String → Except GoErr String)
    (create : RepositoryRelease → CreateReleaseOutcome)
    (tagName committish : String) (settings : ReleaseSettings) :
    Except GoErr Int :=
  let bodyRes : Except GoErr String :=
    if settings.releaseNotesFilename ≠ "" then fs settings.releaseNotesFilename
    else .ok ""
  match bodyRes with
  | .error e => .error e
  | .ok body =>
    let out := create (releaseRequest tagName committish settings body)
    match out.err with
    | some e => .error e
    | none =>
      if out.statusCode ≠ 201 then
        .error (.base ("github: unexpected status code: " ++ toString out.statusCode))
      else .ok out.releaseID

/-- Translation of the `FakeClient` struct: its single field `releaseID`
is an `int64`, whose Go zero value on construction (`&FakeClient{}`)
is 0. -/
structure FakeClient where
  releaseID : Int
  deriving DecidableEq, Repr

/-- Translation of `FakeClient.Release`: the external pseudo-random
source is supplied as `randInt63`, the value returned by `rand.Int63()`
(its contract is a non-negative 63-bit integer, i.e. any value in
`[0, 2^63)`). The method writes that value into `c.releaseID` and
returns it; it performs no network call (it only prints a line for
tests). -/
def fakeRelease (c : FakeClient) (randInt63 : Int) : FakeClient × Int :=
  let c := { c with releaseID := randInt63 }
  (c, c.releaseID)

/-- Translation of `FakeClient.UploadAssetsFile`: `f` is `none` for a nil
`*os.File`. The mismatch check runs first, then the nil-file check, and
otherwise the call succeeds. -/
def fakeUploadAssetsFile (c : FakeClient) (f : Option GoFile) (releaseID : Int) :
    Option GoErr :=
  if c.releaseID ≠ releaseID then
    some (.base ("fake: releaseID mismatch: " ++ toString c.releaseID ++ " != " ++
      toString releaseID))
  else if f = none then some (.base "fake: nil file")
  else none

/-- Translation of `releasetypes.Type` as `NewClient` consumes it: the
single supported variant `GitHub` and the other (unsupported) values of
the enumeration. -/
inductive ReleaseType where
  | gitHub
  | other (name : String)
  deriving DecidableEq, Repr

/-- The client variant chosen by `NewClient`: the dry-run `FakeClient`
or the live `GitHubClient` (carrying the oauth2 static token it was
built with). -/
inductive ClientKind where
  | fake
  | live (token : String)
  deriving DecidableEq, Repr

/-- Translation of `NewClient`: `env` is the process environment
(`os.Getenv`). The release-service type is checked first; then the
`GITHUB_TOKEN` variable is read, an empty value being an error; the
sentinel value `faketoken` selects the `FakeClient`, and any other
token builds the live oauth2-backed `GitHubClient`. -/
def newClient (typ : ReleaseType) (env : String → String) :
    Except GoErr ClientKind :=
  if typ ≠ .gitHub then .error (.base "github: only github is supported for now")
  else
    let token := env "GITHUB_TOKEN"
    if token = "" then
      .error (.base "github: missing \"GITHUB_TOKEN\" env var")
    else if token = "faketoken" then .ok .fake
    else .ok (.live token)

/-- Embedding of `errors.Is(err, context.DeadlineExceeded) ||
errors.Is(err, context.Canceled)` from `parseAndRun`: both targets are
atomic sentinel errors matched by interface equality, and `errors.Is`
unwraps through `fmt.Errorf`-built `%w` chains (`wrap`) but not through
`TemporaryError` (no `Unwrap` method) or atomic errors. -/
def errorsIsContext : GoErr → Bool
  | .deadlineExceeded => true
  | .canceled => true
  | .wrap _ inner => errorsIsContext inner
  | _ => false

/-- Translation of the error path of `parseAndRun` after the deferred
close/logging block: `preInit`, `parse`, `initRes` and `run` are the
outcomes of `core.PreInit()`, `coreCommand.Parse(args)`, `core.Init()`
and `coreCommand.Run(ctx)`; `timeout` is the formatted `core.Timeout`
duration. Each failing step returns its wrapped error at once; a `Run`
failure rooted in `context.DeadlineExceeded` or `context.Canceled`
becomes the dedicated timeout message (a fresh error, not a `%w` wrap),
and any other `Run` failure is wrapped as a generic running error. -/
def parseAndRun (preInit parse initRes run : Option GoErr) (timeout : String) :
    Option GoErr :=
  match preInit with
  | some e => some (.wrap "error in foo" e)
  | none =>
  match parse with
  | some e => some (.wrap "error parsing command line" e)
  | none =>
  match initRes with
  | some e => some (.wrap "error initializing config" e)
  | none =>
  match run with
  | some e =>
    if errorsIsContext e then
      some (.base ("command timed out after " ++ timeout ++
        "; increase -timeout if needed"))
    else some (.wrap "error running command" e)
  | none => none

/-- A `corecmd.CommandHandler` as the `all` command consumes it: the
outcomes of its `Init()` and its `Exec(ctx, args)` calls, each `none`
on success. -/
structure CommandHandler where
  initErr : Option GoErr
  execErr : Option GoErr
  deriving DecidableEq, Repr

/-- Observable lifecycle events of a pipeline run: `initCalled i` and
`execCalled i` record that `Init` (resp. `Exec`) was invoked on the
handler at 0-based position `i`. -/
inductive PipelineEvent where
  | initCalled (i : Nat)
  | execCalled (i : Nat)
  deriving DecidableEq, Repr

/-- One `for _, commandHandler := range commandHandlers` loop of
`all.Exec`, instrumented with the trace of calls it makes: `sel`
projects the outcome of the method the loop invokes (`Init` or `Exec`),
`ev` tags the event, and `i` is the position of the first handler of
`hs` in the full pipeline. The loop stops at, and returns, the first
error. -/
def handlerLoop (sel : CommandHandler → Option GoErr) (ev : Nat → PipelineEvent) :
    List CommandHandler → Nat → List PipelineEvent × Option GoErr
  | [], _ => ([], none)
  | h :: t, i =>
    match sel h with
    | some e => ([ev i], some e)
    | none =>
      let rest := handlerLoop sel ev t (i + 1)
      (ev i :: rest.1, rest.2)

/-- Translation of `all.Exec` over its ordered handler list
(`[a.builder, a.archivist, a.releaser]`, generalized to any ordered
list): after `a.Init()` (which always succeeds — it only stores a
logger), the first loop calls `Init` on every handler in order,
returning the first failure; only when all initialized does the second
loop call `Exec` on every handler in order, returning the first
failure. The result pairs the trace of calls with the returned error. -/
def allExec (hs : List CommandHandler) : List PipelineEvent × Option GoErr :=
  let inits := handlerLoop (fun h => h.initErr) PipelineEvent.initCalled hs 0
  match inits.2 with
  | some e => (inits.1, some e)
  | none =>
    let execs := handlerLoop (fun h => h.execErr) PipelineEvent.execCalled hs 0
    (inits.1 ++ execs.1, execs.2)

/-- C3: the temporary-failure classifier returns fatal (false) exactly
for the two deny-listed status codes 422 (unprocessable entity) and 400
(bad request); every other integer status — in particular every other
non-success status — is classified retryable (true). -/
theorem isTemporaryHttpStatus_fatal_iff (status : Int) :
    isTemporaryHttpStatus status = false ↔ status = 422 ∨ status = 400 := by
  unfold isTemporaryHttpStatus
  by_cases h : status = 422 ∨ status = 400 <;> simp [h]

/-- C10: when the live client's upload round trip returns an error with
no response object at all (nil `*github.Response`, e.g. a transport
failure before any HTTP status was received), `UploadAssetsFile` wraps
the error as `TemporaryError` without consulting the status-code
classifier. -/
theorem githubUploadAssetsFile_nil_response_temporary (e : GoErr) :
    githubUploadAssetsFile (some e) none = some (.temporary e) := rfl

/-- C9: a freshly constructed `FakeClient` has `releaseID` at its Go zero
value 0, so `UploadAssetsFile` with release identifier 0 and a non-nil
file handle succeeds even though `Release` was never called. -/
theorem fakeUploadAssetsFile_fresh_zero_id (f : GoFile) :
    fakeUploadAssetsFile { releaseID := 0 } (some f) 0 = none := by
  simp [fakeUploadAssetsFile]

/-- C4: evaluation of the retry attempt at a concrete failing input. The
file opens, `client.UploadAssetsFile` returns
`TemporaryError{fmt.Errorf("github: 500")}`, yet the attempt reports
`retryable = false`: `errors.Is(err, TemporaryError{})` compares the
error against the zero value `TemporaryError{}` by interface equality
(the type has no `Is` or `Unwrap` method), which fails for every
`TemporaryError` wrapping a non-nil error — so, contrary to the claim
and to the function's own doc comment ("retries on temporary errors"),
a temporary upload failure is never reported retryable and is never
retried. The handle is still opened and closed around the attempt. -/
theorem uploadAttempt_temporary_error_not_retryable :
    uploadAttempt (.ok { name := "dist/myapp.tar.gz" })
      (fun _ => some (.temporary (.base "github: 500"))) =
      ((some (.temporary (.base "github: 500")), false),
        [.opened, .closed]) := rfl

/-- C5: in `GitHubClient.Release`, a configured release-notes file that
fails to read returns that read error at once; a transport-level success
whose status is not 201 (the created status) returns the formatted
unexpected-status error; and that error is a plain error the retry
check never matches as temporary (release creation is never wrapped as
`TemporaryError`). -/
theorem githubRelease_fatal_errors (fs : String → Except GoErr String)
    (create : RepositoryRelease → CreateReleaseOutcome)
    (tagName committish : String) (settings : ReleaseSettings) :
    (∀ e, settings.releaseNotesFilename ≠ "" →
      fs settings.releaseNotesFilename = .error e →
      githubRelease fs create tagName committish settings = .error e) ∧
    (∀ body,
      (if settings.releaseNotesFilename ≠ "" then fs settings.releaseNotesFilename
        else .ok "") = .ok body →
      (create (releaseRequest tagName committish settings body)).err = none →
      (create (releaseRequest tagName committish settings body)).statusCode ≠ 201 →
      githubRelease fs create tagName committish settings =
        .error (.base ("github: unexpected status code: " ++
          toString (create (releaseRequest tagName committish settings body)).statusCode))) ∧
    (∀ st : Int, errorsIsTemporaryEmpty
      (.base ("github: unexpected status code: " ++ toString st)) = false) := by
  refine ⟨fun e hne hread => ?_, fun body hbody herr hst => ?_, fun st => rfl⟩
  · simp [githubRelease, hne, hread]
  · simp only [githubRelease, hbody, herr, hst]
    simp [hst]

/-- Witness for C5: with notes configured at `notes.md`, a failing read
surfaces as that exact error; with a readable notes file and a create
call answering status 404, the unexpected-status error is returned and
the retry check does not match it as temporary. -/
theorem githubRelease_fatal_errors_witness :
    githubRelease (fun _ => .error (.base "open notes.md: no such file"))
      (fun _ => { err := none, statusCode := 201, releaseID := 7 })
      "v1.0.0" "main"
      { repositoryOwner := "gohugoio", repository := "hugo", name := "v1.0.0",
        releaseNotesFilename := "notes.md", draft := false, prerelease := false,
        generateReleaseNotesOnHost := false } =
      .error (.base "open notes.md: no such file") ∧
    githubRelease (fun _ => .ok "release notes body")
      (fun _ => { err := none, statusCode := 404, releaseID := 0 })
      "v1.0.0" "main"
      { repositoryOwner := "gohugoio", repository := "hugo", name := "v1.0.0",
        releaseNotesFilename := "notes.md", draft := false, prerelease := false,
        generateReleaseNotesOnHost := false } =
      .error (.base ("github: unexpected status code: " ++ toString (404 : Int))) ∧
    errorsIsTemporaryEmpty
      (.base ("github: unexpected status code: " ++ toString (404 : Int))) = false :=
  ⟨(githubRelease_fatal_errors (fun _ => .error (.base "open notes.md: no such file"))
      (fun _ => { err := none, statusCode := 201, releaseID := 7 })
      "v1.0.0" "main"
      { repositoryOwner := "gohugoio", repository := "hugo", name := "v1.0.0",
        releaseNotesFilename := "notes.md", draft := false, prerelease := false,
        generateReleaseNotesOnHost := false }).1
      (.base "open notes.md: no such file") (by decide) rfl,
    (githubRelease_fatal_errors (fun _ => .ok "release notes body")
      (fun _ => { err := none, statusCode := 404, releaseID := 0 })
      "v1.0.0" "main"
      { repositoryOwner := "gohugoio", repository := "hugo", name := "v1.0.0",
        releaseNotesFilename := "notes.md", draft := false, prerelease := false,
        generateReleaseNotesOnHost := false }).2.1
      "release notes body" (by simp) rfl (by decide),
    (githubRelease_fatal_errors (fun _ => .ok "release notes body")
      (fun _ => { err := none, statusCode := 404, releaseID := 0 })
      "v1.0.0" "main"
      { repositoryOwner := "gohugoio", repository := "hugo", name := "v1.0.0",
        releaseNotesFilename := "notes.md", draft := false, prerelease := false,
        generateReleaseNotesOnHost := false }).2.2 404⟩

/-- C6 counterexample: `rand.Int63()` is specified as any non-negative
63-bit integer, so 0 is a possible fabricated value; at that input the
dry-run client's `Release` fabricates and records the identifier 0,
contradicting the claim that the fabricated identifier is non-zero. -/
theorem fakeRelease_can_fabricate_zero :
    (0 : Int) ≤ 0 ∧ (0 : Int) < 2 ^ 63 ∧
    (fakeRelease { releaseID := 0 } 0).2 = 0 ∧
    (fakeRelease { releaseID := 0 } 0).1.releaseID = 0 :=
  ⟨le_refl 0, by norm_num, rfl, rfl⟩

/-- C6 (amended): the dry-run `Release` records the pseudo-random value
produced by the generator (possibly zero) as the release identifier and
returns it, with no network effect (the embedded function is pure); a
subsequent `UploadAssetsFile` fails with the identifier-mismatch error
exactly when the identifier passed differs from the recorded one, fails
with the nil-file error when the identifier matches but no file handle
is supplied, and otherwise succeeds. -/
theorem fakeClient_dryrun_behavior (c : FakeClient) (r rid : Int)
    (f : Option GoFile) :
    (fakeRelease c r).2 = r ∧
    (fakeRelease c r).1.releaseID = r ∧
    (rid ≠ r → fakeUploadAssetsFile (fakeRelease c r).1 f rid =
      some (.base ("fake: releaseID mismatch: " ++ toString r ++ " != " ++
        toString rid))) ∧
    (rid = r → f = none →
      fakeUploadAssetsFile (fakeRelease c r).1 f rid = some (.base "fake: nil file")) ∧
    (rid = r → f ≠ none →
      fakeUploadAssetsFile (fakeRelease c r).1 f rid = none) := by
  refine ⟨rfl, rfl, fun hne => ?_, fun heq hnil => ?_, fun heq hsome => ?_⟩
  · simp [fakeUploadAssetsFile, fakeRelease, Ne.symm hne]
  · simp [fakeUploadAssetsFile, fakeRelease, heq, hnil]
  · simp [fakeUploadAssetsFile, fakeRelease, heq, hsome]

/-- Witness for C6: with generator value 42 on a fresh client, uploading
with identifier 7 fails with the mismatch error, uploading with 42 and
no handle fails with the nil-file error, and uploading with 42 and a
handle succeeds. -/
theorem fakeClient_dryrun_behavior_witness :
    fakeUploadAssetsFile (fakeRelease { releaseID := 0 } 42).1
      (some { name := "dist.tar.gz" }) 7 =
      some (.base ("fake: releaseID mismatch: " ++ toString (42 : Int) ++ " != " ++
        toString (7 : Int))) ∧
    fakeUploadAssetsFile (fakeRelease { releaseID := 0 } 42).1 none 42 =
      some (.base "fake: nil file") ∧
    fakeUploadAssetsFile (fakeRelease { releaseID := 0 } 42).1
      (some { name := "dist.tar.gz" }) 42 = none :=
  ⟨(fakeClient_dryrun_behavior ⟨0⟩ 42 7 (some ⟨"dist.tar.gz"⟩)).2.2.1 (by decide),
    (fakeClient_dryrun_behavior ⟨0⟩ 42 42 none).2.2.2.1 rfl rfl,
    (fakeClient_dryrun_behavior ⟨0⟩ 42 42 (some ⟨"dist.tar.gz"⟩)).2.2.2.2 rfl
      (by simp)⟩

/-- C7: the client factory rejects any release-service type other than
the single supported one before reading the token; with the supported
type it rejects an empty `GITHUB_TOKEN`, selects the dry-run client for
the sentinel value `faketoken`, and otherwise builds the live client
with the given token. -/
theorem newClient_selection (typ : ReleaseType) (env : String → String) :
    (typ ≠ .gitHub →
      newClient typ env = .error (.base "github: only github is supported for now")) ∧
    (typ = .gitHub → env "GITHUB_TOKEN" = "" →
      newClient typ env = .error (.base "github: missing \"GITHUB_TOKEN\" env var")) ∧
    (typ = .gitHub → env "GITHUB_TOKEN" = "faketoken" →
      newClient typ env = .ok .fake) ∧
    (typ = .gitHub → env "GITHUB_TOKEN" ≠ "" → env "GITHUB_TOKEN" ≠ "faketoken" →
      newClient typ env = .ok (.live (env "GITHUB_TOKEN"))) := by
  refine ⟨fun hne => ?_, fun heq hempty => ?_, fun heq hfake => ?_,
    fun heq hne hnf => ?_⟩
  · simp [newClient, hne]
  · simp [newClient, heq, hempty]
  · simp [newClient, heq, hfake]
  · simp [newClient, heq, hne, hnf]

/-- Witness for C7: concrete environments exercising all four factory
outcomes. -/
theorem newClient_selection_witness :
    newClient (.other "gitlab") (fun _ => "tok") =
      .error (.base "github: only github is supported for now") ∧
    newClient .gitHub (fun _ => "") =
      .error (.base "github: missing \"GITHUB_TOKEN\" env var") ∧
    newClient .gitHub (fun _ => "faketoken") = .ok .fake ∧
    newClient .gitHub (fun _ => "ghp_secret") = .ok (.live "ghp_secret") :=
  ⟨(newClient_selection (.other "gitlab") (fun _ => "tok")).1 (by decide),
    (newClient_selection .gitHub (fun _ => "")).2.1 rfl rfl,
    (newClient_selection .gitHub (fun _ => "faketoken")).2.2.1 rfl rfl,
    (newClient_selection .gitHub (fun _ => "ghp_secret")).2.2.2 rfl (by decide)
      (by decide)⟩

/-- C8: when command execution fails with an error rooted in
`context.DeadlineExceeded` or `context.Canceled`, the top-level run
returns the dedicated timeout error, which names the timeout budget and
suggests increasing it; any other command failure is wrapped as the
generic running error, and the two are distinct error values for every
underlying failure. -/
theorem parseAndRun_timeout_distinct (timeout : String) (e e' : GoErr) :
    (errorsIsContext e = true →
      parseAndRun none none none (some e) timeout =
        some (.base ("command timed out after " ++ timeout ++
          "; increase -timeout if needed"))) ∧
    (errorsIsContext e' = false →
      parseAndRun none none none (some e') timeout =
        some (.wrap "error running command" e')) ∧
    GoErr.base ("command timed out after " ++ timeout ++
      "; increase -timeout if needed") ≠ .wrap "error running command" e' := by
  refine ⟨fun hctx => ?_, fun hother => ?_, by simp⟩
  · simp [parseAndRun, hctx]
  · simp [parseAndRun, hother]

/-- Witness for C8: a run aborted by the outermost deadline yields the
timeout message for a 30s budget, while an ordinary failure yields the
generic wrapped error, and the two differ. -/
theorem parseAndRun_timeout_distinct_witness :
    parseAndRun none none none (some .deadlineExceeded) "30s" =
      some (.base ("command timed out after " ++ "30s" ++
        "; increase -timeout if needed")) ∧
    parseAndRun none none none (some (.base "exit status 1")) "30s" =
      some (.wrap "error running command" (.base "exit status 1")) ∧
    GoErr.base ("command timed out after " ++ "30s" ++
      "; increase -timeout if needed") ≠
      .wrap "error running command" (.base "exit status 1") :=
  ⟨(parseAndRun_timeout_distinct "30s" .deadlineExceeded
      (.base "exit status 1")).1 rfl,
    (parseAndRun_timeout_distinct "30s" .deadlineExceeded
      (.base "exit status 1")).2.1 rfl,
    (parseAndRun_timeout_distinct "30s" .deadlineExceeded
      (.base "exit status 1")).2.2⟩

/-- Helper: mapping an event tag over `0..n` with base offset `i` peels
off the event at `i` followed by the events with base offset `i + 1`. -/
theorem map_range_shift (ev : Nat → PipelineEvent) (i n : Nat) :
    (List.range (n + 1)).map (fun j => ev (i + j)) =
      ev i :: (List.range n).map (fun j => ev (i + 1 + j)) := by
  rw [List.range_succ_eq_map, List.map_cons, List.map_map]
  have harg : ((fun j => ev (i + j)) ∘ Nat.succ) = fun j => ev (i + 1 + j) := by
    funext j
    simp only [Function.comp_apply]
    exact congrArg ev (by omega)
  rw [harg]
  simp

/-- Helper: a handler loop whose selected method succeeds on every
handler visits all of them in order and reports no error. -/
theorem handlerLoop_all_none (sel : CommandHandler → Option GoErr)
    (ev : Nat → PipelineEvent) (hs : List CommandHandler) :
    ∀ i : Nat, (∀ j (hj : j < hs.length), sel (hs.get ⟨j, hj⟩) = none) →
      handlerLoop sel ev hs i =
        ((List.range hs.length).map (fun j => ev (i + j)), none) := by
  induction hs with
  | nil => intro i _; simp [handlerLoop]
  | cons h t ih =>
    intro i hall
    have h0 : sel h = none := hall 0 (Nat.succ_pos t.length)
    have ht : ∀ j (hj : j < t.length), sel (t.get ⟨j, hj⟩) = none :=
      fun j hj => hall (j + 1) (Nat.succ_lt_succ hj)
    simp only [handlerLoop, h0, ih (i + 1) ht, List.length_cons]
    rw [map_range_shift]

/-- Helper: a handler loop whose selected method succeeds on the first
`k` handlers and fails on the next one visits exactly handlers `0..k`
in order and reports that handler's error. -/
theorem handlerLoop_fail_at (sel : CommandHandler → Option GoErr)
    (ev : Nat → PipelineEvent) (hs : List CommandHandler) :
    ∀ (i k : Nat) (e : GoErr) (hk : k < hs.length),
      (∀ j (hj : j < k), sel (hs.get ⟨j, Nat.lt_trans hj hk⟩) = none) →
      sel (hs.get ⟨k, hk⟩) = some e →
      handlerLoop sel ev hs i =
        ((List.range (k + 1)).map (fun j => ev (i + j)), some e) := by
  induction hs with
  | nil => intro i k e hk; exact absurd hk (by simp)
  | cons h t ih =>
    intro i k e hk hbefore hfail
    cases k with
    | zero =>
      have h0 : sel h = some e := hfail
      simp only [handlerLoop, h0]
      rw [map_range_shift ev i 0]
      simp
    | succ k' =>
      have h0 : sel h = none := hbefore 0 (Nat.succ_pos k')
      have hk' : k' < t.length := Nat.lt_of_succ_lt_succ hk
      have hbefore' : ∀ j (hj : j < k'),
          sel (t.get ⟨j, Nat.lt_trans hj hk'⟩) = none :=
        fun j hj => hbefore (j + 1) (Nat.succ_lt_succ hj)
      have hfail' : sel (t.get ⟨k', hk'⟩) = some e := hfail
      simp only [handlerLoop, h0, ih (i + 1) k' e hk' hbefore' hfail']
      rw [map_range_shift ev i (k' + 1)]

/-- C1: in the `all` pipeline, if every handler before 0-based position
`k` initializes successfully and the handler at `k` fails to
initialize with error `e`, then the run's trace is exactly the `Init`
calls on handlers `0..k` in order — `Init` is not reached past `k` and
`Exec` is invoked on no handler at all — and the pipeline returns
exactly `e`, the failing handler's initialization error. -/
theorem allExec_init_failfast (hs : List CommandHandler) (k : Nat) (e : GoErr)
    (hk : k < hs.length)
    (hbefore : ∀ j (hj : j < k), (hs.get ⟨j, Nat.lt_trans hj hk⟩).initErr = none)
    (hfail : (hs.get ⟨k, hk⟩).initErr = some e) :
    allExec hs = ((List.range (k + 1)).map PipelineEvent.initCalled, some e) := by
  have h := handlerLoop_fail_at (fun h => h.initErr) PipelineEvent.initCalled
    hs 0 k e hk hbefore hfail
  simp [allExec, h]

/-- Witness for C1: in a three-handler pipeline (build, archive, release)
whose second handler fails to initialize, only the first two `Init`
calls happen, no `Exec` runs, and the second handler's error is
returned. -/
theorem allExec_init_failfast_witness :
    allExec [{ initErr := none, execErr := none },
      { initErr := some (.base "bad archive config"), execErr := none },
      { initErr := none, execErr := none }] =
      ((List.range 2).map PipelineEvent.initCalled,
        some (.base "bad archive config")) :=
  allExec_init_failfast
    [{ initErr := none, execErr := none },
      { initErr := some (.base "bad archive config"), execErr := none },
      { initErr := none, execErr := none }]
    1 (.base "bad archive config") (by decide) (by decide) (by decide)

/-- C2: in the `all` pipeline, if every handler initializes successfully,
every handler before 0-based position `k` executes successfully, and
the handler at `k` fails to execute with error `e`, then the trace
consists of the `Init` calls on all handlers followed by the `Exec`
calls on handlers `0..k` in order — no handler after `k` executes —
and the pipeline returns exactly `e`, unmodified. -/
theorem allExec_exec_failfast (hs : List CommandHandler) (k : Nat) (e : GoErr)
    (hk : k < hs.length)
    (hinit : ∀ j (hj : j < hs.length), (hs.get ⟨j, hj⟩).initErr = none)
    (hbefore : ∀ j (hj : j < k), (hs.get ⟨j, Nat.lt_trans hj hk⟩).execErr = none)
    (hfail : (hs.get ⟨k, hk⟩).execErr = some e) :
    allExec hs = ((List.range hs.length).map PipelineEvent.initCalled ++
      (List.range (k + 1)).map PipelineEvent.execCalled, some e) := by
  have h1 := handlerLoop_all_none (fun h => h.initErr) PipelineEvent.initCalled
    hs 0 hinit
  have h2 := handlerLoop_fail_at (fun h => h.execErr) PipelineEvent.execCalled
    hs 0 k e hk hbefore hfail
  simp [allExec, h1, h2]

/-- Witness for C2: in a three-handler pipeline that fully initializes
and whose second handler fails to execute, all three `Init` calls are
followed by exactly the first two `Exec` calls, and the second
handler's execution error is returned unchanged. -/
theorem allExec_exec_failfast_witness :
    allExec [{ initErr := none, execErr := none },
      { initErr := none, execErr := some (.base "tar: disk full") },
      { initErr := none, execErr := none }] =
      ((List.range 3).map PipelineEvent.initCalled ++
        (List.range 2).map PipelineEvent.execCalled,
        some (.base "tar: disk full")) :=
  allExec_exec_failfast
    [{ initErr := none, execErr := none },
      { initErr := none, execErr := some (.base "tar: disk full") },
      { initErr := none, execErr := none }]
    1 (.base "tar: disk full") (by decide) (by decide) (by decide) (by decide)

end Hugoreleaser
